import Mathlib

set_option maxRecDepth 100000
set_option maxHeartbeats 1000000

/-!
Verification of the chip-8 interpreter core (src/lib.rs, src/errors.rs).

Shallow embedding conventions:
* machine integers are `Nat`; 8-bit wraparound is written explicitly
  (`&&& 0xFF`) exactly where the Rust code truncates (`as u8`, `& 0xff`,
  `u8` shifts and multiplies);
* the fixed arrays `memory`, `v`, `gfx`, `stack`, `key` are modelled as total
  maps `Nat → Nat` (Rust would panic on an out-of-bounds index; every theorem
  below only exercises in-bounds indices);
* the `panic!` on an unknown opcode is modelled by `processOpcode` returning
  `none`;
* the `rand::random()` byte of opcode CXNN is passed in as the extra
  parameter `r`.
-/

/-- Machine state, mirroring `struct Chip8` in src/lib.rs. -/
structure Chip8 where
  memory : Nat → Nat
  v : Nat → Nat
  i : Nat
  pc : Nat
  gfx : Nat → Nat
  delay_timer : Nat
  sound_timer : Nat
  stack : Nat → Nat
  sp : Nat
  key : Nat → Nat
  draw_flag : Bool

/-- The 80-byte built-in font, mirroring `CHIP8_FONTSET`. -/
def CHIP8_FONTSET : List Nat :=
  [0xF0, 0x90, 0x90, 0x90, 0xF0,
   0x20, 0x60, 0x20, 0x20, 0x70,
   0xF0, 0x10, 0xF0, 0x80, 0xF0,
   0xF0, 0x10, 0xF0, 0x10, 0xF0,
   0x90, 0x90, 0xF0, 0x10, 0x10,
   0xF0, 0x80, 0xF0, 0x10, 0xF0,
   0xF0, 0x80, 0xF0, 0x90, 0xF0,
   0xF0, 0x10, 0x20, 0x40, 0x40,
   0xF0, 0x90, 0xF0, 0x90, 0xF0,
   0xF0, 0x90, 0xF0, 0x10, 0xF0,
   0xF0, 0x90, 0xF0, 0x90, 0x90,
   0xE0, 0x90, 0xE0, 0x90, 0xE0,
   0xF0, 0x80, 0x80, 0x80, 0xF0,
   0xE0, 0x90, 0x90, 0x90, 0xE0,
   0xF0, 0x80, 0xF0, 0x80, 0xF0,
   0xF0, 0x80, 0xF0, 0x80, 0x80]

/-- The font-copying loop of `Chip8::new`: `for i in 0..79 {{ memory[i] = CHIP8_FONTSET[i] }}`.
Note the source iterates `0..79`, i.e. 79 iterations, and writes at offset `i`
(not `0x50 + i`). -/
def loadFont (m : Nat → Nat) (i cnt : Nat) : Nat → Nat :=
  match cnt with
  | 0 => m
  | c + 1 => loadFont (Function.update m i (CHIP8_FONTSET.getD i 0)) (i + 1) c

/-- Mirror of `Chip8::new`. -/
def Chip8.new : Chip8 :=
  { memory := loadFont (fun _ => 0) 0 79
    v := fun _ => 0
    i := 0
    pc := 0x200
    gfx := fun _ => 0
    delay_timer := 0
    sound_timer := 0
    stack := fun _ => 0
    sp := 0
    key := fun _ => 0
    draw_flag := false }

/-- Mirror of `read_word`: big-endian combination of two bytes. -/
def readWord (memory : Nat → Nat) (index : Nat) : Nat :=
  (memory index) <<< 8 ||| memory (index + 1)

/-- The clear-screen loop of opcode 00E0: `for i in 0..2048 {{ gfx[i] = 0 }}`. -/
def clearGfx (g : Nat → Nat) (i cnt : Nat) : Nat → Nat :=
  match cnt with
  | 0 => g
  | c + 1 => clearGfx (Function.update g i 0) (i + 1) c

/-- The key-scanning loop of opcode FX0A: for each `i` in the window with
`key[i] != 0`, write `v[x] = i` and set the pressed flag. -/
def waitKeyLoop (key : Nat → Nat) (x : Nat) (i cnt : Nat) (v : Nat → Nat) (pressed : Bool) :
    (Nat → Nat) × Bool :=
  match cnt with
  | 0 => (v, pressed)
  | c + 1 =>
    if key i ≠ 0 then waitKeyLoop key x (i + 1) c (Function.update v x i) true
    else waitKeyLoop key x (i + 1) c v pressed

/-- The inner (xline) loop of the DXYN sprite blit: for each bit position in
the window, if the sprite bit is set, record a collision when the target pixel
is already 1 and XOR the pixel. `pixel` is the sprite row byte. -/
def drawX (pixel vxx yc : Nat) (xl cnt : Nat) (gfx : Nat → Nat) (vf : Nat) :
    (Nat → Nat) × Nat :=
  match cnt with
  | 0 => (gfx, vf)
  | c + 1 =>
    if pixel &&& (0x80 >>> xl) ≠ 0 then
      drawX pixel vxx yc (xl + 1) c
        (Function.update gfx (yc * 64 + (vxx + xl) % 64)
          (gfx (yc * 64 + (vxx + xl) % 64) ^^^ 1))
        (if gfx (yc * 64 + (vxx + xl) % 64) = 1 then 1 else vf)
    else drawX pixel vxx yc (xl + 1) c gfx vf

/-- The outer (yline) loop of the DXYN sprite blit. -/
def drawRows (mem : Nat → Nat) (ii vxx vyy : Nat) (yl cnt : Nat) (gfx : Nat → Nat) (vf : Nat) :
    (Nat → Nat) × Nat :=
  match cnt with
  | 0 => (gfx, vf)
  | c + 1 =>
    drawRows mem ii vxx vyy (yl + 1) c
      (drawX (mem (ii + yl)) vxx ((vyy + yl) % 32) 0 8 gfx vf).1
      (drawX (mem (ii + yl)) vxx ((vyy + yl) % 32) 0 8 gfx vf).2

/-- The register-dump loop of FX55: `for i in 0..x {{ memory[I + i] = v[i] }}`. -/
def storeRegs (v : Nat → Nat) (base : Nat) (m : Nat → Nat) (i cnt : Nat) : Nat → Nat :=
  match cnt with
  | 0 => m
  | c + 1 => storeRegs v base (Function.update m (base + i) (v i)) (i + 1) c

/-- The register-fill loop of FX65: `for i in 0..x {{ v[i] = memory[I + i] }}`. -/
def loadRegs (m : Nat → Nat) (base : Nat) (v : Nat → Nat) (i cnt : Nat) : Nat → Nat :=
  match cnt with
  | 0 => v
  | c + 1 => loadRegs m base (Function.update v i (m (base + i))) (i + 1) c

/-- Mirror of `Chip8::process_opcode`. The extra parameter `r` stands for the
`rand::random()` byte consumed by CXNN; `none` models the `panic!` on an
unknown opcode. The flag-register writes are sequenced exactly as in the
source (e.g. 8XY5 re-reads `v[x]`, `v[y]` after writing `v[0xF]`, while 8XY7
uses the values `vx`, `vy` cached before the flag write). -/
def processOpcode (s : Chip8) (r : Nat) (opcode : Nat) : Option Chip8 :=
  let x := (opcode &&& 0x0F00) >>> 8
  let y := (opcode &&& 0x00F0) >>> 4
  let vx := s.v x
  let vy := s.v y
  let nnn := opcode &&& 0x0FFF
  let nn := opcode &&& 0x00FF
  let n := opcode &&& 0x000F
  if opcode &&& 0xF000 = 0x0000 then
    if n = 0x0000 then
      some { s with gfx := clearGfx s.gfx 0 2048, draw_flag := true, pc := s.pc + 2 }
    else if n = 0x000E then
      some { s with sp := s.sp - 1, pc := s.stack (s.sp - 1) + 2 }
    else
      some { s with pc := nnn }
  else if opcode &&& 0xF000 = 0x1000 then
    some { s with pc := nnn }
  else if opcode &&& 0xF000 = 0x2000 then
    some { s with stack := Function.update s.stack s.sp s.pc, sp := s.sp + 1, pc := nnn }
  else if opcode &&& 0xF000 = 0x3000 then
    if s.v x = nn then some { s with pc := s.pc + 4 } else some { s with pc := s.pc + 2 }
  else if opcode &&& 0xF000 = 0x4000 then
    if s.v x ≠ nn then some { s with pc := s.pc + 4 } else some { s with pc := s.pc + 2 }
  else if opcode &&& 0xF000 = 0x5000 then
    if s.v x = s.v y then some { s with pc := s.pc + 4 } else some { s with pc := s.pc + 2 }
  else if opcode &&& 0xF000 = 0x6000 then
    some { s with v := Function.update s.v x nn, pc := s.pc + 2 }
  else if opcode &&& 0xF000 = 0x7000 then
    some { s with v := Function.update s.v x ((s.v x + nn) &&& 0xFF), pc := s.pc + 2 }
  else if opcode &&& 0xF000 = 0x8000 then
    if n = 0x0 then
      some { s with v := Function.update s.v x (s.v y), pc := s.pc + 2 }
    else if n = 0x1 then
      some { s with v := Function.update s.v x (s.v x ||| s.v y), pc := s.pc + 2 }
    else if n = 0x2 then
      some { s with v := Function.update s.v x (s.v x &&& s.v y), pc := s.pc + 2 }
    else if n = 0x3 then
      some { s with v := Function.update s.v x (s.v x ^^^ s.v y), pc := s.pc + 2 }
    else if n = 0x4 then
      let v1 := Function.update s.v 15 (if s.v y > 0xFF - s.v x then 1 else 0)
      some { s with v := Function.update v1 x ((v1 x + v1 y) &&& 0xFF), pc := s.pc + 2 }
    else if n = 0x5 then
      let v1 := Function.update s.v 15 (if s.v y > s.v x then 0 else 1)
      let tx := v1 x
      let ty := v1 y
      let tz := if ty > tx then ty - tx - 1 else tx - ty
      some { s with v := Function.update v1 x tz, pc := s.pc + 2 }
    else if n = 0x6 then
      let v1 := Function.update s.v 15 (s.v x &&& 0x1)
      some { s with v := Function.update v1 x (v1 x >>> 1), pc := s.pc + 2 }
    else if n = 0x7 then
      let v1 := Function.update s.v 15 (if vx > vy then 0 else 1)
      let tz := if vx > vy then vx - vy - 1 else vy - vx
      some { s with v := Function.update v1 x tz, pc := s.pc + 2 }
    else if n = 0xE then
      let v1 := Function.update s.v 15 (s.v x >>> 7)
      some { s with v := Function.update v1 x ((v1 x <<< 1) &&& 0xFF), pc := s.pc + 2 }
    else none
  else if opcode &&& 0xF000 = 0x9000 then
    if s.v x ≠ s.v y then some { s with pc := s.pc + 4 } else some { s with pc := s.pc + 2 }
  else if opcode &&& 0xF000 = 0xA000 then
    some { s with i := nnn, pc := s.pc + 2 }
  else if opcode &&& 0xF000 = 0xB000 then
    some { s with pc := nnn + s.v 0 }
  else if opcode &&& 0xF000 = 0xC000 then
    some { s with v := Function.update s.v x (r ||| nn), pc := s.pc + 2 }
  else if opcode &&& 0xF000 = 0xD000 then
    let res := drawRows s.memory s.i vx vy 0 n s.gfx 0
    some { s with gfx := res.1, v := Function.update s.v 15 res.2,
                  draw_flag := true, pc := s.pc + 2 }
  else if opcode &&& 0xF000 = 0xE000 then
    if opcode &&& 0x00FF = 0x009E then
      if s.key vx ≠ 0 then
        some { s with key := Function.update s.key vx 0, pc := s.pc + 4 }
      else
        some { s with pc := s.pc + 2 }
    else if opcode &&& 0x00FF = 0x00A1 then
      if s.key vx = 0 then
        some { s with pc := s.pc + 4 }
      else
        some { s with key := Function.update s.key vx 0, pc := s.pc + 2 }
    else none
  else if opcode &&& 0xF000 = 0xF000 then
    if opcode &&& 0x00FF = 0x0007 then
      some { s with v := Function.update s.v x s.delay_timer, pc := s.pc + 2 }
    else if opcode &&& 0x00FF = 0x000A then
      let res := waitKeyLoop s.key x 0 16 s.v false
      if res.2 then some { s with v := res.1, pc := s.pc + 2 }
      else some { s with v := res.1 }
    else if opcode &&& 0x00FF = 0x0015 then
      some { s with delay_timer := s.v x, pc := s.pc + 2 }
    else if opcode &&& 0x00FF = 0x0018 then
      some { s with sound_timer := s.v x, pc := s.pc + 2 }
    else if opcode &&& 0x00FF = 0x001E then
      let v1 := Function.update s.v 15 (if s.i + s.v x > 0xFFF then 1 else 0)
      some { s with v := v1, i := s.i + v1 x, pc := s.pc + 2 }
    else if opcode &&& 0x00FF = 0x0029 then
      some { s with i := (s.v x * 5) &&& 0xFF, pc := s.pc + 2 }
    else if opcode &&& 0x00FF = 0x0033 then
      let m1 := Function.update s.memory s.i (s.v x / 100)
      let m2 := Function.update m1 (s.i + 1) (s.v x / 10 % 10)
      let m3 := Function.update m2 (s.i + 2) (s.v x % 10)
      some { s with memory := m3, pc := s.pc + 2 }
    else if opcode &&& 0x00FF = 0x0055 then
      some { s with memory := storeRegs s.v s.i s.memory 0 x, pc := s.pc + 2 }
    else if opcode &&& 0x00FF = 0x0065 then
      some { s with v := loadRegs s.memory s.i s.v 0 x, pc := s.pc + 2 }
    else none
  else none

/-- Mirror of `Chip8::update_timers`. -/
def updateTimers (s : Chip8) : Chip8 :=
  { s with
    delay_timer := if s.delay_timer > 0 then s.delay_timer - 1 else s.delay_timer
    sound_timer := if s.sound_timer > 0 then s.sound_timer - 1 else s.sound_timer }

/-- Mirror of `Chip8::execute_cycle`: fetch, dispatch, then tick the timers. -/
def executeCycle (s : Chip8) (r : Nat) : Option Chip8 :=
  (processOpcode s r (readWord s.memory s.pc)).map updateTimers

/-- Mirror of `ProgramTooLargeError` in src/errors.rs. -/
inductive Chip8Error where
  | programTooLarge

/-- The copy loop of `Chip8::load_program`: byte `i` of the image goes to
`memory[i + 512]`. -/
def loadBytes (m : Nat → Nat) (i : Nat) : List Nat → (Nat → Nat)
  | [] => m
  | b :: rest => loadBytes (Function.update m (i + 512) b) (i + 1) rest

/-- Mirror of `Chip8::load_program`. -/
def loadProgram (s : Chip8) (program : List Nat) : Except Chip8Error Chip8 :=
  if program.length + 512 > 4096 then Except.error Chip8Error.programTooLarge
  else Except.ok { s with memory := loadBytes s.memory 0 program }

/-! ### Helper lemmas about the loops -/

/-- Pointwise description of the `load_program` copy loop. -/
lemma loadBytes_spec : ∀ (l : List Nat) (i : Nat) (m : Nat → Nat) (a : Nat),
    loadBytes m i l a =
      if i + 512 ≤ a ∧ a < i + 512 + l.length then l.getD (a - (i + 512)) 0 else m a := by
  intro l
  induction l with
  | nil =>
    intro i m a
    rw [loadBytes, if_neg (by simp only [List.length_nil]; omega)]
  | cons b rest ih =>
    intro i m a
    rw [loadBytes, ih]
    by_cases h1 : i + 1 + 512 ≤ a ∧ a < i + 1 + 512 + rest.length
    · rw [if_pos h1, if_pos (by simp only [List.length_cons]; omega)]
      rw [show a - (i + 512) = (a - (i + 1 + 512)) + 1 by omega, List.getD_cons_succ]
    · rw [if_neg h1]
      by_cases h2 : a = i + 512
      · subst h2
        rw [Function.update_same, if_pos (by simp only [List.length_cons]; omega)]
        rw [show i + 512 - (i + 512) = 0 by omega, List.getD_cons_zero]
      · rw [Function.update_noteq h2, if_neg (by simp only [List.length_cons]; omega)]

/-- The FX0A scan makes no change when every key latch in the scanned window is
clear. -/
lemma waitKeyLoop_clear (key : Nat → Nat) (x : Nat) :
    ∀ (cnt i : Nat) (v : Nat → Nat) (p : Bool),
      (∀ j, i ≤ j → j < i + cnt → key j = 0) →
      waitKeyLoop key x i cnt v p = (v, p) := by
  intro cnt
  induction cnt with
  | zero => intro i v p _; rfl
  | succ c ih =>
    intro i v p h
    rw [waitKeyLoop, if_neg (not_not_intro (h i le_rfl (by omega)))]
    exact ih (i + 1) v p (fun j h1 h2 => h j (by omega) (by omega))

/-- The FX0A scan writes the greatest set latch index of the window into
`v[x]` and reports a press. -/
lemma waitKeyLoop_found (key : Nat → Nat) (x : Nat) :
    ∀ (cnt i : Nat) (v : Nat → Nat) (p : Bool) (J : Nat),
      i ≤ J → J < i + cnt → key J ≠ 0 →
      (∀ j, J < j → j < i + cnt → key j = 0) →
      waitKeyLoop key x i cnt v p = (Function.update v x J, true) := by
  intro cnt
  induction cnt with
  | zero => intro i v p J h1 h2 _ _; omega
  | succ c ih =>
    intro i v p J h1 h2 hJ hcl
    by_cases hi : key i ≠ 0
    · rw [waitKeyLoop, if_pos hi]
      by_cases hJi : J = i
      · subst hJi
        exact waitKeyLoop_clear key x c (J + 1) _ _
          (fun j hj1 hj2 => hcl j (by omega) (by omega))
      · rw [ih (i + 1) (Function.update v x i) true J (by omega) (by omega) hJ
          (fun j ha hb => hcl j ha (by omega))]
        rw [Function.update_idem]
    · push_neg at hi
      rw [waitKeyLoop, if_neg (not_not_intro hi)]
      have hJi : J ≠ i := fun he => hJ (he ▸ hi)
      exact ih (i + 1) v p J (by omega) (by omega) hJ (fun j ha hb => hcl j ha (by omega))

/-- For a class-F opcode with low byte 0x0A and all key latches clear, the
dispatcher returns with the state untouched (the blocking branch of FX0A). -/
lemma fx0a_blocked (s : Chip8) (r op : Nat)
    (hcls : op &&& 0xF000 = 0xF000) (hlow : op &&& 0x00FF = 0x000A)
    (hkeys : ∀ j, j < 16 → s.key j = 0) :
    processOpcode s r op = some s := by
  simp only [processOpcode, hcls, hlow]
  rw [waitKeyLoop_clear s.key _ 16 0 s.v false (fun j h1 h2 => hkeys j (by omega))]
  rfl

/-! ### Claim C5 (font placement) -/

/-- Claim C5: refuted by evaluation. The claim says bytes [0x050, 0x0A0) hold the
80-byte font and all other cells are 0. In the code, `Chip8::new` copies only
79 font bytes and writes them at addresses 0..78: `memory[0x50] = 0` although
the claim requires the first font byte 0xF0 there, and `memory[0] = 0xF0`
although the claim requires 0. The program counter is 0x200 as claimed. -/
theorem c5_font_misplaced_eval :
    Chip8.new.memory 0x50 = 0 ∧ Chip8.new.memory 0x9F = 0 ∧
    Chip8.new.memory 0 = 0xF0 ∧ CHIP8_FONTSET.getD 0 0 = 0xF0 ∧
    Chip8.new.memory 78 = 0x80 ∧ Chip8.new.memory 79 = 0 ∧
    Chip8.new.pc = 0x200 ∧ Chip8.new.sp = 0 := by decide

/-! ### Claim C1 (arithmetic opcodes, 8XY5/8XY7 borrow path) -/

/-- State with `v[0] = 0`, `v[1] = 1`, used for the 8XY5 evaluation. -/
def c1StateA : Chip8 := { Chip8.new with v := Function.update Chip8.new.v 1 1 }

/-- State with `v[0] = 1`, `v[1] = 0`, used for the 8XY7 evaluation. -/
def c1StateB : Chip8 := { Chip8.new with v := Function.update Chip8.new.v 0 1 }

/-- Claim C1: refuted by evaluation on the borrow path. Opcode 0x8015 on
`v[0] = 0, v[1] = 1` leaves `v[0] = 0` (the code computes `|vx - vy| - 1`),
while the claimed wrapping subtraction `(0 - 1) mod 256` is 255; the flag 0 is
as claimed. Opcode 0x8017 on `v[0] = 1, v[1] = 0` likewise leaves `v[0] = 0`
instead of the claimed 255. -/
theorem c1_borrow_not_mod256_eval :
    ((processOpcode c1StateA 0 0x8015).map fun t => (t.v 0, t.v 15)) = some (0, 0) ∧
    (c1StateA.v 0 + 256 - c1StateA.v 1) % 256 = 255 ∧
    ((processOpcode c1StateB 0 0x8017).map fun t => (t.v 0, t.v 15)) = some (0, 0) ∧
    (c1StateB.v 1 + 256 - c1StateB.v 0) % 256 = 255 := by decide

/-! ### Claim C3 (CXNN) -/

/-- Claim C3: refuted by evaluation. The claim says `V[x] = random_byte() AND nn`,
so with `nn = 0` the result must be 0 for every random byte. The code computes
`r | nn` (bitwise OR): with random byte 1 and opcode 0xC000 (`nn = 0`) it
stores 1, while `1 AND 0 = 0`. -/
theorem c3_rand_or_not_and_eval :
    ((processOpcode Chip8.new 1 0xC000).map fun t => t.v 0) = some 1 ∧
    (1 &&& (0xC000 &&& 0x00FF) : Nat) = 0 := by decide

/-! ### Claim C6 (program loading bounds) -/

/-- Claim C6: loading an image of exactly 3584 bytes succeeds and copies it verbatim
to offset 512 leaving every other cell untouched, while an image of 3585 or
more bytes is rejected with the distinct load error before any write. -/
theorem c6_load_bounds (s : Chip8) (p : List Nat) :
    (p.length = 3584 →
      loadProgram s p = Except.ok { s with memory := loadBytes s.memory 0 p } ∧
      (∀ k, k < p.length → loadBytes s.memory 0 p (512 + k) = p.getD k 0) ∧
      (∀ a, a < 512 ∨ 512 + p.length ≤ a → loadBytes s.memory 0 p a = s.memory a)) ∧
    (3585 ≤ p.length → loadProgram s p = Except.error Chip8Error.programTooLarge) := by
  constructor
  · intro hl
    refine ⟨?_, ?_, ?_⟩
    · rw [loadProgram, if_neg (by omega)]
    · intro k hk
      rw [loadBytes_spec, if_pos (by omega)]
      congr 1
      omega
    · intro a ha
      rw [loadBytes_spec, if_neg (by omega)]
  · intro hl
    rw [loadProgram, if_pos (by omega)]

/-- Claim C6 witness at the two boundary sizes. -/
theorem c6_load_bounds_witness :
    loadProgram Chip8.new (List.replicate 3584 0) =
      Except.ok { Chip8.new with
        memory := loadBytes Chip8.new.memory 0 (List.replicate 3584 0) } ∧
    loadProgram Chip8.new (List.replicate 3585 0) =
      Except.error Chip8Error.programTooLarge :=
  ⟨((c6_load_bounds Chip8.new (List.replicate 3584 0)).1 (by rw [List.length_replicate])).1,
   (c6_load_bounds Chip8.new (List.replicate 3585 0)).2 (by rw [List.length_replicate])⟩

/-! ### Claim C8 (2NNN / 00EE pairing) -/

/-- Claim C8: 2NNN at address `p` pushes `p`, bumps the stack pointer and jumps to
`nnn`; a later 00EE executed in any state whose stack pointer and pushed slot
are unchanged pops the slot, restores the stack pointer and resumes at
`p + 2`. -/
theorem c8_call_ret (s : Chip8) (r r2 op ret : Nat)
    (hsp : s.sp < 16)
    (hop : op &&& 0xF000 = 0x2000)
    (hr1 : ret &&& 0xF000 = 0x0000) (hr2 : ret &&& 0x000F = 0x000E) :
    processOpcode s r op =
      some { s with stack := Function.update s.stack s.sp s.pc, sp := s.sp + 1,
                    pc := op &&& 0x0FFF } ∧
    ∀ u : Chip8, u.sp = s.sp + 1 → u.stack s.sp = s.pc →
      ∀ w, processOpcode u r2 ret = some w → w.pc = s.pc + 2 ∧ w.sp = s.sp := by
  constructor
  · simp [processOpcode, hop]
  · intro u hu1 hu2 w hw
    simp [processOpcode, hr1, hr2] at hw
    subst hw
    refine ⟨?_, ?_⟩
    · show u.stack (u.sp - 1) + 2 = s.pc + 2
      rw [show u.sp - 1 = s.sp by omega, hu2]
    · show u.sp - 1 = s.sp
      omega

/-- Intermediate state after the concrete call of the C8 witness. -/
def c8Mid : Chip8 :=
  { Chip8.new with
    stack := Function.update Chip8.new.stack Chip8.new.sp Chip8.new.pc
    sp := Chip8.new.sp + 1
    pc := 0x2ABC &&& 0x0FFF }

/-- Claim C8 witness: a concrete call from the reset state followed by the return. -/
theorem c8_call_ret_witness :
    processOpcode Chip8.new 0 0x2ABC = some c8Mid ∧
    ((processOpcode c8Mid 0 0x00EE).map fun w => (w.pc, w.sp)) = some (0x202, 0) := by
  have h := c8_call_ret Chip8.new 0 0 0x2ABC 0x00EE (by decide) (by decide)
    (by decide) (by decide)
  refine ⟨h.1, ?_⟩
  obtain ⟨w, hw⟩ : ∃ w, processOpcode c8Mid 0 0x00EE = some w := ⟨_, rfl⟩
  rw [hw, Option.map_some']
  obtain ⟨h1, h2⟩ := h.2 c8Mid rfl rfl w hw
  rw [h1, h2]
  rfl


/-! ### Claim C2 (FX0A key wait) -/

/-- Reset state with key latches 0 and 1 both set. -/
def c2TwoKeys : Chip8 :=
  { Chip8.new with key := Function.update (Function.update Chip8.new.key 0 1) 1 1 }

/-- Claim C2 counterexample: with latches 0 and 1 set, FX0A (opcode 0xF00A, x = 0)
stores 1 into `v[0]`, not the lowest set index 0 — the scan loop keeps
overwriting `v[x]`, so the highest set index wins. -/
theorem c2_lowest_key_refuted :
    ((processOpcode c2TwoKeys 0 0xF00A).map fun t => t.v 0) = some 1 ∧
    c2TwoKeys.key 0 = 1 ∧
    ((processOpcode c2TwoKeys 0 0xF00A).map fun t => t.v 0) ≠ some 0 := by decide

/-- Claim C2 amended: on a cycle where the instruction is FX0A, if all 16 latches
are clear the dispatcher leaves the state completely unchanged (the program
counter does not advance); if at least one latch is set, `v[x]` receives the
highest (last scanned) set latch index and the program counter advances
by 2. -/
theorem c2_wait_key (s : Chip8) (r op : Nat)
    (hcls : op &&& 0xF000 = 0xF000) (hlow : op &&& 0x00FF = 0x000A) :
    ((∀ j, j < 16 → s.key j = 0) → processOpcode s r op = some s) ∧
    (∀ J, J < 16 → s.key J ≠ 0 → (∀ j, J < j → j < 16 → s.key j = 0) →
      processOpcode s r op =
        some { s with
          v := Function.update s.v ((op &&& 0x0F00) >>> 8) J
          pc := s.pc + 2 }) := by
  constructor
  · intro hk
    exact fx0a_blocked s r op hcls hlow hk
  · intro J hJ hne hcl
    simp only [processOpcode, hcls, hlow]
    rw [waitKeyLoop_found s.key _ 16 0 s.v false J (by omega) (by omega) hne
      (fun j ha hb => hcl j ha (by omega))]
    rfl

/-- Reset state with only key latch 3 set. -/
def c2OneKey : Chip8 := { Chip8.new with key := Function.update Chip8.new.key 3 1 }

/-- Claim C2 witness: both branches of the amended statement at concrete states. -/
theorem c2_wait_key_witness :
    processOpcode Chip8.new 0 0xF00A = some Chip8.new ∧
    processOpcode c2OneKey 0 0xF00A =
      some { c2OneKey with
        v := Function.update c2OneKey.v ((0xF00A &&& 0x0F00) >>> 8) 3
        pc := c2OneKey.pc + 2 } :=
  ⟨(c2_wait_key Chip8.new 0 0xF00A (by decide) (by decide)).1 (fun j hj => rfl),
   (c2_wait_key c2OneKey 0 0xF00A (by decide) (by decide)).2 3 (by decide) (by decide)
     (fun j h1 h2 => by
       show Function.update Chip8.new.key 3 1 j = 0
       rw [Function.update_noteq (by omega)]
       rfl)⟩

/-! ### Claim C9 (timers tick while FX0A blocks) -/

/-- Claim C9: on a cycle whose fetched instruction is FX0A with every key latch
clear, `execute_cycle` changes nothing but the two timers, each of which
drops by 1 when positive and stays put (at 0) otherwise. -/
theorem c9_blocked_timers (s : Chip8) (r : Nat)
    (hcls : readWord s.memory s.pc &&& 0xF000 = 0xF000)
    (hlow : readWord s.memory s.pc &&& 0x00FF = 0x000A)
    (hkeys : ∀ j, j < 16 → s.key j = 0) :
    executeCycle s r =
      some { s with
        delay_timer := if s.delay_timer > 0 then s.delay_timer - 1 else s.delay_timer
        sound_timer := if s.sound_timer > 0 then s.sound_timer - 1 else s.sound_timer } := by
  rw [executeCycle, fx0a_blocked s r _ hcls hlow hkeys]
  rfl

/-- State used for the C9 witness: FX0A stored at the reset program counter,
a positive delay timer and a zero sound timer. -/
def c9State : Chip8 :=
  { Chip8.new with
    memory := Function.update (Function.update Chip8.new.memory 0x200 0xF0) 0x201 0x0A
    delay_timer := 5 }

/-- Claim C9 witness at a concrete blocked state. -/
theorem c9_blocked_timers_witness :
    executeCycle c9State 0 =
      some { c9State with
        delay_timer := if c9State.delay_timer > 0 then c9State.delay_timer - 1
                       else c9State.delay_timer
        sound_timer := if c9State.sound_timer > 0 then c9State.sound_timer - 1
                       else c9State.sound_timer } :=
  c9_blocked_timers c9State 0 (by decide) (by decide) (fun j hj => rfl)


/-- Master case analysis of one dispatcher step: the draw flag after a
successful step is set iff it was set before or the opcode was dispatched to
the clear-screen or DXYN branch, and every opcode outside the four
control-transfer families 0x0/0x1/0x2/0xB moves the program counter to one of
`pc`, `pc + 2`, `pc + 4`. -/
lemma processOpcode_flag_pc (s : Chip8) (r op : Nat) (t : Chip8)
    (ht : processOpcode s r op = some t) :
    (t.draw_flag = true ↔
      (s.draw_flag = true ∨ (op &&& 0xF000 = 0x0000 ∧ op &&& 0x000F = 0x0000) ∨
        op &&& 0xF000 = 0xD000)) ∧
    (op &&& 0xF000 ≠ 0x0000 → op &&& 0xF000 ≠ 0x1000 → op &&& 0xF000 ≠ 0x2000 →
      op &&& 0xF000 ≠ 0xB000 →
      (t.pc = s.pc ∨ t.pc = s.pc + 2 ∨ t.pc = s.pc + 4)) := by
  simp only [processOpcode] at ht
  by_cases c0 : op &&& 0xF000 = 0x0000
  · rw [if_pos c0] at ht
    by_cases cn0 : op &&& 0x000F = 0x0000
    · rw [if_pos cn0] at ht
      injection ht with ht2; subst ht2
      exact ⟨by simp [c0, cn0], fun h0 _ _ _ => absurd c0 h0⟩
    · rw [if_neg cn0] at ht
      by_cases cnE : op &&& 0x000F = 0x000E
      · rw [if_pos cnE] at ht
        injection ht with ht2; subst ht2
        exact ⟨by simp [c0, cn0, cnE], fun h0 _ _ _ => absurd c0 h0⟩
      · rw [if_neg cnE] at ht
        injection ht with ht2; subst ht2
        exact ⟨by simp [c0, cn0], fun h0 _ _ _ => absurd c0 h0⟩
  · rw [if_neg c0] at ht
    by_cases c1 : op &&& 0xF000 = 0x1000
    · rw [if_pos c1] at ht
      injection ht with ht2; subst ht2
      exact ⟨by simp [c1], fun _ h1 _ _ => absurd c1 h1⟩
    rw [if_neg c1] at ht
    by_cases c2 : op &&& 0xF000 = 0x2000
    · rw [if_pos c2] at ht
      injection ht with ht2; subst ht2
      exact ⟨by simp [c2], fun _ _ h2 _ => absurd c2 h2⟩
    rw [if_neg c2] at ht
    by_cases c3 : op &&& 0xF000 = 0x3000
    · rw [if_pos c3] at ht
      split at ht
      all_goals injection ht with ht2
      all_goals subst ht2
      all_goals exact ⟨by simp [c3], fun _ _ _ _ => by simp⟩
    rw [if_neg c3] at ht
    by_cases c4 : op &&& 0xF000 = 0x4000
    · rw [if_pos c4] at ht
      split at ht
      all_goals injection ht with ht2
      all_goals subst ht2
      all_goals exact ⟨by simp [c4], fun _ _ _ _ => by simp⟩
    rw [if_neg c4] at ht
    by_cases c5 : op &&& 0xF000 = 0x5000
    · rw [if_pos c5] at ht
      split at ht
      all_goals injection ht with ht2
      all_goals subst ht2
      all_goals exact ⟨by simp [c5], fun _ _ _ _ => by simp⟩
    rw [if_neg c5] at ht
    by_cases c6 : op &&& 0xF000 = 0x6000
    · rw [if_pos c6] at ht
      injection ht with ht2; subst ht2
      exact ⟨by simp [c6], fun _ _ _ _ => by simp⟩
    rw [if_neg c6] at ht
    by_cases c7 : op &&& 0xF000 = 0x7000
    · rw [if_pos c7] at ht
      injection ht with ht2; subst ht2
      exact ⟨by simp [c7], fun _ _ _ _ => by simp⟩
    rw [if_neg c7] at ht
    by_cases c8 : op &&& 0xF000 = 0x8000
    · rw [if_pos c8] at ht
      by_cases n0 : op &&& 0x000F = 0x0
      · rw [if_pos n0] at ht
        injection ht with ht2; subst ht2
        exact ⟨by simp [c8], fun _ _ _ _ => by simp⟩
      rw [if_neg n0] at ht
      by_cases n1 : op &&& 0x000F = 0x1
      · rw [if_pos n1] at ht
        injection ht with ht2; subst ht2
        exact ⟨by simp [c8], fun _ _ _ _ => by simp⟩
      rw [if_neg n1] at ht
      by_cases n2 : op &&& 0x000F = 0x2
      · rw [if_pos n2] at ht
        injection ht with ht2; subst ht2
        exact ⟨by simp [c8], fun _ _ _ _ => by simp⟩
      rw [if_neg n2] at ht
      by_cases n3 : op &&& 0x000F = 0x3
      · rw [if_pos n3] at ht
        injection ht with ht2; subst ht2
        exact ⟨by simp [c8], fun _ _ _ _ => by simp⟩
      rw [if_neg n3] at ht
      by_cases n4 : op &&& 0x000F = 0x4
      · rw [if_pos n4] at ht
        injection ht with ht2; subst ht2
        exact ⟨by simp [c8], fun _ _ _ _ => by simp⟩
      rw [if_neg n4] at ht
      by_cases n5 : op &&& 0x000F = 0x5
      · rw [if_pos n5] at ht
        injection ht with ht2; subst ht2
        exact ⟨by simp [c8], fun _ _ _ _ => by simp⟩
      rw [if_neg n5] at ht
      by_cases n6 : op &&& 0x000F = 0x6
      · rw [if_pos n6] at ht
        injection ht with ht2; subst ht2
        exact ⟨by simp [c8], fun _ _ _ _ => by simp⟩
      rw [if_neg n6] at ht
      by_cases n7 : op &&& 0x000F = 0x7
      · rw [if_pos n7] at ht
        injection ht with ht2; subst ht2
        exact ⟨by simp [c8], fun _ _ _ _ => by simp⟩
      rw [if_neg n7] at ht
      by_cases nE : op &&& 0x000F = 0xE
      · rw [if_pos nE] at ht
        injection ht with ht2; subst ht2
        exact ⟨by simp [c8], fun _ _ _ _ => by simp⟩
      rw [if_neg nE] at ht
      exact Option.noConfusion ht
    rw [if_neg c8] at ht
    by_cases c9 : op &&& 0xF000 = 0x9000
    · rw [if_pos c9] at ht
      split at ht
      all_goals injection ht with ht2
      all_goals subst ht2
      all_goals exact ⟨by simp [c9], fun _ _ _ _ => by simp⟩
    rw [if_neg c9] at ht
    by_cases cA : op &&& 0xF000 = 0xA000
    · rw [if_pos cA] at ht
      injection ht with ht2; subst ht2
      exact ⟨by simp [cA], fun _ _ _ _ => by simp⟩
    rw [if_neg cA] at ht
    by_cases cB : op &&& 0xF000 = 0xB000
    · rw [if_pos cB] at ht
      injection ht with ht2; subst ht2
      exact ⟨by simp [cB], fun _ _ _ hB => absurd cB hB⟩
    rw [if_neg cB] at ht
    by_cases cC : op &&& 0xF000 = 0xC000
    · rw [if_pos cC] at ht
      injection ht with ht2; subst ht2
      exact ⟨by simp [cC], fun _ _ _ _ => by simp⟩
    rw [if_neg cC] at ht
    by_cases cD : op &&& 0xF000 = 0xD000
    · rw [if_pos cD] at ht
      injection ht with ht2; subst ht2
      exact ⟨by simp [cD], fun _ _ _ _ => by simp⟩
    rw [if_neg cD] at ht
    by_cases cE : op &&& 0xF000 = 0xE000
    · rw [if_pos cE] at ht
      by_cases e1 : op &&& 0x00FF = 0x009E
      · rw [if_pos e1] at ht
        split at ht
        all_goals injection ht with ht2
        all_goals subst ht2
        all_goals exact ⟨by simp [cE], fun _ _ _ _ => by simp⟩
      rw [if_neg e1] at ht
      by_cases e2 : op &&& 0x00FF = 0x00A1
      · rw [if_pos e2] at ht
        split at ht
        all_goals injection ht with ht2
        all_goals subst ht2
        all_goals exact ⟨by simp [cE], fun _ _ _ _ => by simp⟩
      rw [if_neg e2] at ht
      exact Option.noConfusion ht
    rw [if_neg cE] at ht
    by_cases cF : op &&& 0xF000 = 0xF000
    · rw [if_pos cF] at ht
      by_cases f07 : op &&& 0x00FF = 0x0007
      · rw [if_pos f07] at ht
        injection ht with ht2; subst ht2
        exact ⟨by simp [cF], fun _ _ _ _ => by simp⟩
      rw [if_neg f07] at ht
      by_cases f0A : op &&& 0x00FF = 0x000A
      · rw [if_pos f0A] at ht
        split at ht
        all_goals injection ht with ht2
        all_goals subst ht2
        all_goals exact ⟨by simp [cF], fun _ _ _ _ => by simp⟩
      rw [if_neg f0A] at ht
      by_cases f15 : op &&& 0x00FF = 0x0015
      · rw [if_pos f15] at ht
        injection ht with ht2; subst ht2
        exact ⟨by simp [cF], fun _ _ _ _ => by simp⟩
      rw [if_neg f15] at ht
      by_cases f18 : op &&& 0x00FF = 0x0018
      · rw [if_pos f18] at ht
        injection ht with ht2; subst ht2
        exact ⟨by simp [cF], fun _ _ _ _ => by simp⟩
      rw [if_neg f18] at ht
      by_cases f1E : op &&& 0x00FF = 0x001E
      · rw [if_pos f1E] at ht
        injection ht with ht2; subst ht2
        exact ⟨by simp [cF], fun _ _ _ _ => by simp⟩
      rw [if_neg f1E] at ht
      by_cases f29 : op &&& 0x00FF = 0x0029
      · rw [if_pos f29] at ht
        injection ht with ht2; subst ht2
        exact ⟨by simp [cF], fun _ _ _ _ => by simp⟩
      rw [if_neg f29] at ht
      by_cases f33 : op &&& 0x00FF = 0x0033
      · rw [if_pos f33] at ht
        injection ht with ht2; subst ht2
        exact ⟨by simp [cF], fun _ _ _ _ => by simp⟩
      rw [if_neg f33] at ht
      by_cases f55 : op &&& 0x00FF = 0x0055
      · rw [if_pos f55] at ht
        injection ht with ht2; subst ht2
        exact ⟨by simp [cF], fun _ _ _ _ => by simp⟩
      rw [if_neg f55] at ht
      by_cases f65 : op &&& 0x00FF = 0x0065
      · rw [if_pos f65] at ht
        injection ht with ht2; subst ht2
        exact ⟨by simp [cF], fun _ _ _ _ => by simp⟩
      rw [if_neg f65] at ht
      exact Option.noConfusion ht
    rw [if_neg cF] at ht
    exact Option.noConfusion ht

/-! ### Claim C10 (display-dirty flag) -/

/-- Claim C10: the dispatcher never clears the dirty flag: after any successful
step the flag is set iff it was already set or the executed opcode was
dispatched to the clear-screen branch (class 0, low nibble 0) or to the DXYN
branch; consequently `execute_cycle` preserves a set flag. -/
theorem c10_dirty_monotone (s : Chip8) (r op : Nat) :
    (∀ t, processOpcode s r op = some t →
      (t.draw_flag = true ↔
        (s.draw_flag = true ∨ (op &&& 0xF000 = 0x0000 ∧ op &&& 0x000F = 0x0000) ∨
          op &&& 0xF000 = 0xD000))) ∧
    (∀ t, executeCycle s r = some t → s.draw_flag = true → t.draw_flag = true) := by
  constructor
  · exact fun t ht => (processOpcode_flag_pc s r op t ht).1
  · intro t ht hflag
    rw [executeCycle] at ht
    obtain ⟨t0, h1, h2⟩ := Option.map_eq_some'.mp ht
    subst h2
    have := (processOpcode_flag_pc s r _ t0 h1).1.mpr (Or.inl hflag)
    simpa [updateTimers] using this

/-! ### Claim C7 (program-counter parity and range) -/

/-- Claim C7 counterexample: the loadable two-byte program `0x12 0x01` (opcode
0x1201, a jump to 0x201) drives the program counter to the odd value 0x201
after a single cycle from the reset state. -/
theorem c7_odd_pc_eval :
    ((loadProgram Chip8.new [0x12, 0x01]).toOption.bind fun s =>
      (executeCycle s 0).map fun t => t.pc) = some 0x201 ∧ (0x201 : Nat) % 2 = 1 := by
  decide

/-- Claim C7 amended: evenness of the program counter is preserved by every opcode
outside the control-transfer families 0x0NNN/1NNN/2NNN/BNNN (whose targets
come from the instruction word or the stack); a loadable program using an odd
jump target violates the claimed invariant. -/
theorem c7_pc_parity (s : Chip8) (r op : Nat) (t : Chip8)
    (h0 : op &&& 0xF000 ≠ 0x0000) (h1 : op &&& 0xF000 ≠ 0x1000)
    (h2 : op &&& 0xF000 ≠ 0x2000) (hB : op &&& 0xF000 ≠ 0xB000)
    (ht : processOpcode s r op = some t) (he : s.pc % 2 = 0) : t.pc % 2 = 0 := by
  rcases (processOpcode_flag_pc s r op t ht).2 h0 h1 h2 hB with h | h | h <;> omega

/-- Claim C7 witness: opcode 0x6005 from the reset state keeps the counter even. -/
theorem c7_pc_parity_witness :
    ((processOpcode Chip8.new 0 0x6005).map fun t => t.pc % 2) = some 0 := by
  obtain ⟨t, ht⟩ : ∃ t, processOpcode Chip8.new 0 0x6005 = some t := ⟨_, rfl⟩
  rw [ht, Option.map_some']
  exact congrArg some (c7_pc_parity Chip8.new 0 0x6005 t (by decide) (by decide)
    (by decide) (by decide) ht (by decide))

/-- Reset state with the dirty flag already set, for the C10 witness. -/
def c10Dirty : Chip8 := { Chip8.new with draw_flag := true }

/-- Claim C10 witness: 00E0 sets the flag from the reset state, and a cycle from a
dirty state keeps the flag set. -/
theorem c10_dirty_monotone_witness :
    ((processOpcode Chip8.new 0 0x00E0).map Chip8.draw_flag) = some true ∧
    ((executeCycle c10Dirty 0).map Chip8.draw_flag) = some true := by
  constructor
  · obtain ⟨t, ht⟩ : ∃ t, processOpcode Chip8.new 0 0x00E0 = some t := ⟨_, rfl⟩
    rw [ht, Option.map_some']
    have h := (c10_dirty_monotone Chip8.new 0 0x00E0).1 t ht
    exact congrArg some (h.mpr (Or.inr (Or.inl (by decide))))
  · obtain ⟨t, ht⟩ : ∃ t, executeCycle c10Dirty 0 = some t := ⟨_, rfl⟩
    rw [ht, Option.map_some']
    exact congrArg some ((c10_dirty_monotone c10Dirty 0 0).2 t ht rfl)

/-! ### Claim C4 (DXYN sprite blit): characterizations of the draw loops -/

/-- Whether some set sprite bit of one row, among bit positions
`xl, …, xl+cnt-1`, targets pixel index `a`. -/
def hitInRow (pixel vxx yc : Nat) (xl cnt a : Nat) : Bool :=
  match cnt with
  | 0 => false
  | c + 1 =>
    ((pixel &&& (0x80 >>> xl) != 0) && (a == yc * 64 + (vxx + xl) % 64)) ||
      hitInRow pixel vxx yc (xl + 1) c a

/-- Whether some set sprite bit of one row targets a pixel that reads 1 in
`g`. -/
def collideInRow (pixel vxx yc : Nat) (g : Nat → Nat) (xl cnt : Nat) : Bool :=
  match cnt with
  | 0 => false
  | c + 1 =>
    ((pixel &&& (0x80 >>> xl) != 0) && (g (yc * 64 + (vxx + xl) % 64) == 1)) ||
      collideInRow pixel vxx yc g (xl + 1) c

/-- Whether some set bit of the sprite rows `yl, …, yl+cnt-1` targets pixel
index `a`. -/
def hitSprite (mem : Nat → Nat) (ii vxx vyy : Nat) (yl cnt a : Nat) : Bool :=
  match cnt with
  | 0 => false
  | c + 1 =>
    hitInRow (mem (ii + yl)) vxx ((vyy + yl) % 32) 0 8 a ||
      hitSprite mem ii vxx vyy (yl + 1) c a

/-- Whether some set bit of the sprite rows targets a pixel that reads 1 in
`g`. -/
def collideSprite (mem : Nat → Nat) (ii vxx vyy : Nat) (g : Nat → Nat) (yl cnt : Nat) : Bool :=
  match cnt with
  | 0 => false
  | c + 1 =>
    collideInRow (mem (ii + yl)) vxx ((vyy + yl) % 32) g 0 8 ||
      collideSprite mem ii vxx vyy g (yl + 1) c

lemma hitInRow_iff (pixel vxx yc : Nat) : ∀ (cnt xl a : Nat),
    hitInRow pixel vxx yc xl cnt a = true ↔
      ∃ k, k < cnt ∧ pixel &&& (0x80 >>> (xl + k)) ≠ 0 ∧
        a = yc * 64 + (vxx + (xl + k)) % 64 := by
  intro cnt
  induction cnt with
  | zero => intro xl a; simp [hitInRow]
  | succ c ih =>
    intro xl a
    simp only [hitInRow, Bool.or_eq_true, Bool.and_eq_true, bne_iff_ne, ne_eq,
      beq_iff_eq, ih]
    constructor
    · rintro (⟨hb, ha⟩ | ⟨k, hk, hb, ha⟩)
      · exact ⟨0, by omega, by simpa using hb, by simpa using ha⟩
      · refine ⟨k + 1, by omega, ?_, ?_⟩
        · rw [show xl + (k + 1) = xl + 1 + k by omega]; exact hb
        · rw [show xl + (k + 1) = xl + 1 + k by omega]; exact ha
    · rintro ⟨k, hk, hb, ha⟩
      cases k with
      | zero => exact Or.inl ⟨by simpa using hb, by simpa using ha⟩
      | succ k2 =>
        refine Or.inr ⟨k2, by omega, ?_, ?_⟩
        · rw [show xl + 1 + k2 = xl + (k2 + 1) by omega]; exact hb
        · rw [show xl + 1 + k2 = xl + (k2 + 1) by omega]; exact ha

lemma collideInRow_iff (pixel vxx yc : Nat) (g : Nat → Nat) : ∀ (cnt xl : Nat),
    collideInRow pixel vxx yc g xl cnt = true ↔
      ∃ k, k < cnt ∧ pixel &&& (0x80 >>> (xl + k)) ≠ 0 ∧
        g (yc * 64 + (vxx + (xl + k)) % 64) = 1 := by
  intro cnt
  induction cnt with
  | zero => intro xl; simp [collideInRow]
  | succ c ih =>
    intro xl
    simp only [collideInRow, Bool.or_eq_true, Bool.and_eq_true, bne_iff_ne, ne_eq,
      beq_iff_eq, ih]
    constructor
    · rintro (⟨hb, ha⟩ | ⟨k, hk, hb, ha⟩)
      · exact ⟨0, by omega, by simpa using hb, by simpa using ha⟩
      · refine ⟨k + 1, by omega, ?_, ?_⟩
        · rw [show xl + (k + 1) = xl + 1 + k by omega]; exact hb
        · rw [show xl + (k + 1) = xl + 1 + k by omega]; exact ha
    · rintro ⟨k, hk, hb, ha⟩
      cases k with
      | zero => exact Or.inl ⟨by simpa using hb, by simpa using ha⟩
      | succ k2 =>
        refine Or.inr ⟨k2, by omega, ?_, ?_⟩
        · rw [show xl + 1 + k2 = xl + (k2 + 1) by omega]; exact hb
        · rw [show xl + 1 + k2 = xl + (k2 + 1) by omega]; exact ha

lemma collideInRow_congr (pixel vxx yc : Nat) (g1 g2 : Nat → Nat) : ∀ (cnt xl : Nat),
    (∀ k, k < cnt → g1 (yc * 64 + (vxx + (xl + k)) % 64) =
      g2 (yc * 64 + (vxx + (xl + k)) % 64)) →
    collideInRow pixel vxx yc g1 xl cnt = collideInRow pixel vxx yc g2 xl cnt := by
  intro cnt
  induction cnt with
  | zero => intro xl _; rfl
  | succ c ih =>
    intro xl h
    have h0 := h 0 (by omega)
    simp only [Nat.add_zero] at h0
    simp only [collideInRow, h0]
    rw [ih (xl + 1) (fun k hk => by
      have hh := h (k + 1) (by omega)
      rwa [show xl + (k + 1) = xl + 1 + k by omega] at hh)]

lemma drawX_gfx (pixel vxx yc : Nat) : ∀ (cnt xl : Nat) (gfx : Nat → Nat) (vf a : Nat),
    cnt ≤ 64 →
    (drawX pixel vxx yc xl cnt gfx vf).1 a =
      if hitInRow pixel vxx yc xl cnt a = true then gfx a ^^^ 1 else gfx a := by
  intro cnt
  induction cnt with
  | zero => intro xl gfx vf a _; simp [drawX, hitInRow]
  | succ c ih =>
    intro xl gfx vf a hcnt
    by_cases hb : pixel &&& (0x80 >>> xl) ≠ 0
    · rw [drawX, if_pos hb, ih _ _ _ _ (by omega)]
      by_cases ha : a = yc * 64 + (vxx + xl) % 64
      · subst ha
        have htail : hitInRow pixel vxx yc (xl + 1) c (yc * 64 + (vxx + xl) % 64) = false := by
          cases hq : hitInRow pixel vxx yc (xl + 1) c (yc * 64 + (vxx + xl) % 64)
          · rfl
          · exfalso
            obtain ⟨k, hk, _, hEq⟩ := (hitInRow_iff pixel vxx yc c (xl + 1) _).mp hq
            omega
        have hhead : hitInRow pixel vxx yc xl (c + 1) (yc * 64 + (vxx + xl) % 64) = true := by
          simp only [hitInRow, Bool.or_eq_true, Bool.and_eq_true, bne_iff_ne, ne_eq,
            beq_iff_eq]
          exact Or.inl ⟨hb, by trivial⟩
        rw [htail, hhead, if_neg Bool.false_ne_true, if_pos rfl, Function.update_same]
      · rw [Function.update_noteq ha]
        have hhead : hitInRow pixel vxx yc xl (c + 1) a =
            hitInRow pixel vxx yc (xl + 1) c a := by
          simp only [hitInRow]
          have hne : (a == yc * 64 + (vxx + xl) % 64) = false := by
            simp only [beq_eq_false_iff_ne, ne_eq]
            exact ha
          rw [hne, Bool.and_false, Bool.false_or]
        rw [hhead]
    · rw [drawX, if_neg hb, ih _ _ _ _ (by omega)]
      have hhead : hitInRow pixel vxx yc xl (c + 1) a =
          hitInRow pixel vxx yc (xl + 1) c a := by
        simp only [hitInRow]
        have hz : (pixel &&& (0x80 >>> xl) != 0) = false := by
          simp only [bne_eq_false_iff_eq]
          exact not_not.mp hb
        rw [hz, Bool.false_and, Bool.false_or]
      rw [hhead]

lemma drawX_flag (pixel vxx yc : Nat) : ∀ (cnt xl : Nat) (gfx : Nat → Nat) (vf : Nat),
    cnt ≤ 64 →
    (drawX pixel vxx yc xl cnt gfx vf).2 =
      if collideInRow pixel vxx yc gfx xl cnt = true then 1 else vf := by
  intro cnt
  induction cnt with
  | zero => intro xl gfx vf _; simp [drawX, collideInRow]
  | succ c ih =>
    intro xl gfx vf hcnt
    by_cases hb : pixel &&& (0x80 >>> xl) ≠ 0
    · rw [drawX, if_pos hb, ih _ _ _ (by omega)]
      have hcongr : collideInRow pixel vxx yc
          (Function.update gfx (yc * 64 + (vxx + xl) % 64)
            (gfx (yc * 64 + (vxx + xl) % 64) ^^^ 1)) (xl + 1) c =
          collideInRow pixel vxx yc gfx (xl + 1) c := by
        apply collideInRow_congr
        intro k hk
        apply Function.update_noteq
        omega
      rw [hcongr]
      simp only [collideInRow]
      by_cases hg : gfx (yc * 64 + (vxx + xl) % 64) = 1
      · simp [hb, hg]
      · simp [hb, hg]
    · rw [drawX, if_neg hb, ih _ _ _ (by omega)]
      simp only [collideInRow]
      simp [not_not.mp hb]

lemma hitSprite_iff (mem : Nat → Nat) (ii vxx vyy : Nat) : ∀ (cnt yl a : Nat),
    hitSprite mem ii vxx vyy yl cnt a = true ↔
      ∃ j, j < cnt ∧
        hitInRow (mem (ii + (yl + j))) vxx ((vyy + (yl + j)) % 32) 0 8 a = true := by
  intro cnt
  induction cnt with
  | zero => intro yl a; simp [hitSprite]
  | succ c ih =>
    intro yl a
    simp only [hitSprite, Bool.or_eq_true, ih]
    constructor
    · rintro (h | ⟨j, hj, h⟩)
      · exact ⟨0, by omega, by simpa using h⟩
      · refine ⟨j + 1, by omega, ?_⟩
        rw [show yl + (j + 1) = yl + 1 + j by omega]
        exact h
    · rintro ⟨j, hj, h⟩
      cases j with
      | zero => exact Or.inl (by simpa using h)
      | succ j2 =>
        refine Or.inr ⟨j2, by omega, ?_⟩
        rw [show yl + 1 + j2 = yl + (j2 + 1) by omega]
        exact h

lemma collideSprite_iff (mem : Nat → Nat) (ii vxx vyy : Nat) (g : Nat → Nat) :
    ∀ (cnt yl : Nat),
    collideSprite mem ii vxx vyy g yl cnt = true ↔
      ∃ j, j < cnt ∧
        collideInRow (mem (ii + (yl + j))) vxx ((vyy + (yl + j)) % 32) g 0 8 = true := by
  intro cnt
  induction cnt with
  | zero => intro yl; simp [collideSprite]
  | succ c ih =>
    intro yl
    simp only [collideSprite, Bool.or_eq_true, ih]
    constructor
    · rintro (h | ⟨j, hj, h⟩)
      · exact ⟨0, by omega, by simpa using h⟩
      · refine ⟨j + 1, by omega, ?_⟩
        rw [show yl + (j + 1) = yl + 1 + j by omega]
        exact h
    · rintro ⟨j, hj, h⟩
      cases j with
      | zero => exact Or.inl (by simpa using h)
      | succ j2 =>
        refine Or.inr ⟨j2, by omega, ?_⟩
        rw [show yl + 1 + j2 = yl + (j2 + 1) by omega]
        exact h

lemma hitInRow_row (pixel vxx yc xl cnt a : Nat)
    (h : hitInRow pixel vxx yc xl cnt a = true) : a / 64 = yc := by
  obtain ⟨k, hk, _, ha⟩ := (hitInRow_iff pixel vxx yc cnt xl a).mp h
  omega

lemma collideSprite_congr (mem : Nat → Nat) (ii vxx vyy : Nat) (g1 g2 : Nat → Nat) :
    ∀ (cnt yl : Nat),
      (∀ j, j < cnt → ∀ k, k < 8 →
        g1 (((vyy + (yl + j)) % 32) * 64 + (vxx + k) % 64) =
          g2 (((vyy + (yl + j)) % 32) * 64 + (vxx + k) % 64)) →
      collideSprite mem ii vxx vyy g1 yl cnt = collideSprite mem ii vxx vyy g2 yl cnt := by
  intro cnt
  induction cnt with
  | zero => intro yl _; rfl
  | succ c ih =>
    intro yl h
    simp only [collideSprite]
    rw [collideInRow_congr (mem (ii + yl)) vxx ((vyy + yl) % 32) g1 g2 8 0
        (fun k hk => by simpa using h 0 (by omega) k hk),
      ih (yl + 1) (fun j hj k hk => by
        have hh := h (j + 1) (by omega) k hk
        rwa [show yl + (j + 1) = yl + 1 + j by omega] at hh)]

lemma drawRows_gfx (mem : Nat → Nat) (ii vxx vyy : Nat) :
    ∀ (cnt yl : Nat) (gfx : Nat → Nat) (vf a : Nat), cnt ≤ 32 →
    (drawRows mem ii vxx vyy yl cnt gfx vf).1 a =
      if hitSprite mem ii vxx vyy yl cnt a = true then gfx a ^^^ 1 else gfx a := by
  intro cnt
  induction cnt with
  | zero => intro yl gfx vf a _; simp [drawRows, hitSprite]
  | succ c ih =>
    intro yl gfx vf a hcnt
    rw [drawRows, ih _ _ _ _ (by omega), drawX_gfx _ _ _ 8 0 gfx vf a (by omega)]
    simp only [hitSprite]
    by_cases hrow : hitInRow (mem (ii + yl)) vxx ((vyy + yl) % 32) 0 8 a = true
    · have htail : hitSprite mem ii vxx vyy (yl + 1) c a = false := by
        cases hq : hitSprite mem ii vxx vyy (yl + 1) c a
        · rfl
        · exfalso
          obtain ⟨j, hj, hr2⟩ := (hitSprite_iff mem ii vxx vyy c (yl + 1) a).mp hq
          have d1 := hitInRow_row _ _ _ _ _ _ hrow
          have d2 := hitInRow_row _ _ _ _ _ _ hr2
          omega
      simp [hrow, htail]
    · have hrowf : hitInRow (mem (ii + yl)) vxx ((vyy + yl) % 32) 0 8 a = false :=
        Bool.eq_false_iff.mpr hrow
      simp [hrowf]

lemma drawRows_flag (mem : Nat → Nat) (ii vxx vyy : Nat) :
    ∀ (cnt yl : Nat) (gfx : Nat → Nat) (vf : Nat), cnt ≤ 32 →
    (drawRows mem ii vxx vyy yl cnt gfx vf).2 =
      if collideSprite mem ii vxx vyy gfx yl cnt = true then 1 else vf := by
  intro cnt
  induction cnt with
  | zero => intro yl gfx vf _; simp [drawRows, collideSprite]
  | succ c ih =>
    intro yl gfx vf hcnt
    rw [drawRows, ih _ _ _ (by omega), drawX_flag _ _ _ 8 0 gfx vf (by omega)]
    have hcongr : collideSprite mem ii vxx vyy
        ((drawX (mem (ii + yl)) vxx ((vyy + yl) % 32) 0 8 gfx vf).1) (yl + 1) c =
        collideSprite mem ii vxx vyy gfx (yl + 1) c := by
      apply collideSprite_congr
      intro j hj k hk
      rw [drawX_gfx _ _ _ 8 0 gfx vf _ (by omega)]
      have hmiss : hitInRow (mem (ii + yl)) vxx ((vyy + yl) % 32) 0 8
          (((vyy + (yl + 1 + j)) % 32) * 64 + (vxx + k) % 64) = false := by
        cases hq : hitInRow (mem (ii + yl)) vxx ((vyy + yl) % 32) 0 8
            (((vyy + (yl + 1 + j)) % 32) * 64 + (vxx + k) % 64)
        · rfl
        · exfalso
          have d1 := hitInRow_row _ _ _ _ _ _ hq
          omega
      rw [hmiss]
      simp
    rw [hcongr]
    simp only [collideSprite]
    by_cases hrow : collideInRow (mem (ii + yl)) vxx ((vyy + yl) % 32) gfx 0 8 = true
    · simp [hrow]
    · have hrowf : collideInRow (mem (ii + yl)) vxx ((vyy + yl) % 32) gfx 0 8 = false :=
        Bool.eq_false_iff.mpr hrow
      simp [hrowf]

lemma hitSprite_iff_full (mem : Nat → Nat) (ii vxx vyy n a : Nat) :
    hitSprite mem ii vxx vyy 0 n a = true ↔
      ∃ yl, yl < n ∧ ∃ xl, xl < 8 ∧ mem (ii + yl) &&& (0x80 >>> xl) ≠ 0 ∧
        a = ((vyy + yl) % 32) * 64 + (vxx + xl) % 64 := by
  rw [hitSprite_iff]
  constructor
  · rintro ⟨j, hj, h⟩
    rw [hitInRow_iff] at h
    obtain ⟨k, hk, hb, ha⟩ := h
    exact ⟨j, hj, k, hk, by simpa using hb, by simpa using ha⟩
  · rintro ⟨yl, hyl, xl, hxl, hb, ha⟩
    refine ⟨yl, hyl, ?_⟩
    rw [hitInRow_iff]
    exact ⟨xl, hxl, by simpa using hb, by simpa using ha⟩

lemma collideSprite_iff_full (mem : Nat → Nat) (ii vxx vyy : Nat) (g : Nat → Nat) (n : Nat) :
    collideSprite mem ii vxx vyy g 0 n = true ↔
      ∃ yl, yl < n ∧ ∃ xl, xl < 8 ∧ mem (ii + yl) &&& (0x80 >>> xl) ≠ 0 ∧
        g (((vyy + yl) % 32) * 64 + (vxx + xl) % 64) = 1 := by
  rw [collideSprite_iff]
  constructor
  · rintro ⟨j, hj, h⟩
    rw [collideInRow_iff] at h
    obtain ⟨k, hk, hb, hg⟩ := h
    exact ⟨j, hj, k, hk, by simpa using hb, by simpa using hg⟩
  · rintro ⟨yl, hyl, xl, hxl, hb, hg⟩
    refine ⟨yl, hyl, ?_⟩
    rw [collideInRow_iff]
    exact ⟨xl, hxl, by simpa using hb, by simpa using hg⟩

/-- Result of the DXYN draw loops for state `s` and instruction word `op`:
new display and final flag value. -/
def drawResult (s : Chip8) (op : Nat) : (Nat → Nat) × Nat :=
  drawRows s.memory s.i (s.v ((op &&& 0x0F00) >>> 8)) (s.v ((op &&& 0x00F0) >>> 4))
    0 (op &&& 0x000F) s.gfx 0

/-- The state produced by a DXYN instruction. -/
def drawnState (s : Chip8) (op : Nat) : Chip8 :=
  { s with
    gfx := (drawResult s op).1
    v := Function.update s.v 15 (drawResult s op).2
    draw_flag := true
    pc := s.pc + 2 }

/-- A class-D opcode always dispatches to the sprite blit. -/
lemma processOpcode_draw (s : Chip8) (r op : Nat) (hcls : op &&& 0xF000 = 0xD000) :
    processOpcode s r op = some (drawnState s op) := by
  simp only [processOpcode, hcls]
  rfl

lemma xor_one_one (m : Nat) : m ^^^ 1 ^^^ 1 = m := by
  rw [Nat.xor_assoc, Nat.xor_self, Nat.xor_zero]

/-- Claim C4 amended: for every class-D instruction (index plus height in memory
bounds), the dispatcher produces `drawnState`: the collision flag is 1 iff
some set sprite bit targeted a pixel (coordinates wrapped modulo 64 and 32)
that already read 1, the flag is otherwise 0, the dirty flag is set even when
nothing was drawn, and — provided neither coordinate register is the flag
register 0xF — repeating the identical instruction restores every pixel, the
second draw reporting a collision whenever the first turned some pixel on. -/
theorem c4_sprite_blit (s : Chip8) (r r2 op : Nat)
    (hcls : op &&& 0xF000 = 0xD000)
    (hbound : s.i + (op &&& 0x000F) ≤ 4096) :
    processOpcode s r op = some (drawnState s op) ∧
    ((drawnState s op).v 15 = 1 ↔
      ∃ yl, yl < op &&& 0x000F ∧ ∃ xl, xl < 8 ∧
        s.memory (s.i + yl) &&& (0x80 >>> xl) ≠ 0 ∧
        s.gfx (((s.v ((op &&& 0x00F0) >>> 4) + yl) % 32) * 64 +
          (s.v ((op &&& 0x0F00) >>> 8) + xl) % 64) = 1) ∧
    ((drawnState s op).v 15 = 0 ∨ (drawnState s op).v 15 = 1) ∧
    (drawnState s op).draw_flag = true ∧
    ((op &&& 0x0F00) >>> 8 ≠ 15 → (op &&& 0x00F0) >>> 4 ≠ 15 →
      ∀ u, processOpcode (drawnState s op) r2 op = some u →
        (∀ a, u.gfx a = s.gfx a) ∧
        ((∃ a, hitSprite s.memory s.i (s.v ((op &&& 0x0F00) >>> 8))
            (s.v ((op &&& 0x00F0) >>> 4)) 0 (op &&& 0x000F) a = true ∧ s.gfx a = 0) →
          u.v 15 = 1)) := by
  have hn32 : op &&& 0x000F ≤ 32 := le_trans Nat.and_le_right (by norm_num)
  have hv15 : (drawnState s op).v 15 = (drawResult s op).2 := by
    simp [drawnState]
  have hres2 : (drawResult s op).2 =
      if collideSprite s.memory s.i (s.v ((op &&& 0x0F00) >>> 8))
          (s.v ((op &&& 0x00F0) >>> 4)) s.gfx 0 (op &&& 0x000F) = true
      then 1 else 0 := by
    rw [drawResult]
    exact drawRows_flag _ _ _ _ _ 0 _ 0 hn32
  have hres1 : ∀ a, (drawResult s op).1 a =
      if hitSprite s.memory s.i (s.v ((op &&& 0x0F00) >>> 8))
          (s.v ((op &&& 0x00F0) >>> 4)) 0 (op &&& 0x000F) a = true
      then s.gfx a ^^^ 1 else s.gfx a := by
    intro a
    rw [drawResult]
    exact drawRows_gfx _ _ _ _ _ 0 _ 0 a hn32
  refine ⟨processOpcode_draw s r op hcls, ?_, ?_, ?_, ?_⟩
  · rw [hv15, hres2]
    constructor
    · intro h1
      by_cases hc : collideSprite s.memory s.i (s.v ((op &&& 0x0F00) >>> 8))
          (s.v ((op &&& 0x00F0) >>> 4)) s.gfx 0 (op &&& 0x000F) = true
      · exact (collideSprite_iff_full _ _ _ _ _ _).mp hc
      · rw [if_neg hc] at h1
        exact absurd h1 (by decide)
    · intro hex
      rw [if_pos ((collideSprite_iff_full _ _ _ _ _ _).mpr hex)]
  · rw [hv15, hres2]
    split
    · right; rfl
    · left; rfl
  · simp [drawnState]
  · intro hx hy u hu
    rw [processOpcode_draw _ r2 op hcls] at hu
    have hu2 : u = drawnState (drawnState s op) op := (Option.some.inj hu).symm
    subst hu2
    have hfields : drawResult (drawnState s op) op =
        drawRows s.memory s.i (s.v ((op &&& 0x0F00) >>> 8)) (s.v ((op &&& 0x00F0) >>> 4))
          0 (op &&& 0x000F) (drawResult s op).1 0 := by
      simp only [drawResult, drawnState]
      rw [Function.update_noteq hx, Function.update_noteq hy]
    have hres21 : ∀ a, (drawResult (drawnState s op) op).1 a =
        if hitSprite s.memory s.i (s.v ((op &&& 0x0F00) >>> 8))
            (s.v ((op &&& 0x00F0) >>> 4)) 0 (op &&& 0x000F) a = true
        then (drawResult s op).1 a ^^^ 1 else (drawResult s op).1 a := by
      intro a
      rw [hfields]
      exact drawRows_gfx _ _ _ _ _ 0 _ 0 a hn32
    constructor
    · intro a
      show (drawResult (drawnState s op) op).1 a = s.gfx a
      rw [hres21 a, hres1 a]
      by_cases hh : hitSprite s.memory s.i (s.v ((op &&& 0x0F00) >>> 8))
          (s.v ((op &&& 0x00F0) >>> 4)) 0 (op &&& 0x000F) a = true
      · simp [hh, xor_one_one]
      · simp [hh]
    · rintro ⟨a, hhit, hzero⟩
      show (Function.update (drawnState s op).v 15 (drawResult (drawnState s op) op).2) 15 = 1
      rw [Function.update_same, hfields]
      rw [drawRows_flag _ _ _ _ _ 0 _ 0 hn32]
      rw [if_pos ?_]
      obtain ⟨yl, hyl, xl, hxl, hb, ha⟩ := (hitSprite_iff_full _ _ _ _ _ _).mp hhit
      refine (collideSprite_iff_full _ _ _ _ _ _).mpr ⟨yl, hyl, xl, hxl, hb, ?_⟩
      rw [← ha, hres1 a, if_pos hhit, hzero]
      rfl

/-- Reset state with `v[15] = 1`, used to refute the double-draw claim. -/
def c4FlagState : Chip8 := { Chip8.new with v := Function.update Chip8.new.v 15 1 }

/-- Claim C4 counterexample: for the DXYN instruction 0xDF01 the x-coordinate
register is the flag register 0xF. From `v[15] = 1` (memory row 0xF0 at
`i = 0`), the first draw turns pixel 4 on, but the draw overwrites `v[15]`
with the collision flag, so the immediate second execution of the identical
instruction draws at a different column and leaves pixel 4 set: the double
draw does not restore the display. -/
theorem c4_double_draw_refuted :
    ((processOpcode c4FlagState 0 0xDF01).map fun t => t.gfx 4) = some 1 ∧
    ((processOpcode c4FlagState 0 0xDF01).bind fun t =>
      (processOpcode t 0 0xDF01).map fun u => u.gfx 4) = some 1 ∧
    c4FlagState.gfx 4 = 0 := by decide

/-- Claim C4 witness: drawing font glyph 0 (opcode 0xD125 from the reset state). -/
theorem c4_sprite_blit_witness :
    processOpcode Chip8.new 0 0xD125 = some (drawnState Chip8.new 0xD125) ∧
    (drawnState Chip8.new 0xD125).draw_flag = true ∧
    (drawnState (drawnState Chip8.new 0xD125) 0xD125).gfx 129 = Chip8.new.gfx 129 ∧
    (drawnState (drawnState Chip8.new 0xD125) 0xD125).v 15 = 1 := by
  have h := c4_sprite_blit Chip8.new 0 0 0xD125 (by decide) (by decide)
  have h5 := h.2.2.2.2 (by decide) (by decide)
    (drawnState (drawnState Chip8.new 0xD125) 0xD125)
    (processOpcode_draw _ 0 0xD125 (by decide))
  exact ⟨h.1, h.2.2.2.1, h5.1 129, h5.2 ⟨0, by decide, rfl⟩⟩
